import Mathlib

/-!
Verification of the slicing orchestration core of the irmf-slicer repository.

The Go sources are shallowly embedded:
* float32 model-space arithmetic is embedded as exact rational arithmetic (ℚ);
  Go's `int(0.5 + x)` conversion (truncation toward zero of `0.5 + x`) is
  embedded as `goInt (1/2 + x)`;
* the stateful per-slice sweep loops of `irmf/renderer.go` become a recursive
  function `sweepLoop` that threads an explicit processor state and records,
  in order, which slice indices were successfully rendered and at which
  indices the slice processor was invoked;
* the `binvox` accumulator (`binvox/binvox.go`) becomes a `BinVOX` record with
  a finite set of occupied voxel keys (the Go `WhiteVoxels` map keys; the
  external stldice `Add` records a key in that map);
* the backend-lifecycle logic of `Slicer.NewModel` is embedded separately as a
  transition function on an optional backend handle that records Close/install
  events.
-/

namespace IrmfSlicer

/-- Go's conversion from a floating-point value to `int` truncates toward
zero.  `goInt x` is that conversion, on exact rationals. -/
def goInt (x : ℚ) : ℤ := if 0 ≤ x then ⌊x⌋ else ⌈x⌉

/-- The IRMF model descriptor, as used by `irmf/renderer.go`: bounding box
`Min`/`Max` (three components each), the material name list, the shading
language tag and the shader body. -/
structure IRMF where
  Min : Fin 3 → ℚ
  Max : Fin 3 → ℚ
  Materials : List String
  Language : String
  Shader : String

/-- A rasterized slice (Go `image.Image`): an integer bounds rectangle
`[minX, maxX) × [minY, maxY)` and the red channel value at each pixel
(Go `color.RGBA()` returns the red channel as a nonnegative integer). -/
structure Img where
  minX : ℤ
  minY : ℤ
  maxX : ℤ
  maxY : ℤ
  red : ℤ → ℤ → ℕ

/-- Behavioral view of a rendering backend (the `Renderer` interface of
`irmf/renderer.go`): `Init`, `Prepare` and `Render` may each fail with a
message. `Prepare`'s arguments are irrelevant to the claims and omitted. -/
structure Renderer where
  init : ℤ → ℤ → Bool → Except String Unit
  prepare : Except String Unit
  render : ℚ → ℤ → Except String Img

/-- The slicer context (`Slicer` of `irmf/renderer.go`) after a model has been
loaded: the model, per-axis voxel pitch, the view flag, and the (possibly
absent) rendering backend. -/
structure Slicer where
  irmf : IRMF
  deltaX : ℚ
  deltaY : ℚ
  deltaZ : ℚ
  view : Bool
  renderer : Option Renderer

/-- Raw rounded slice count along X, as computed inside `NumXSlices` and
`RenderXSlices`: `int(0.5 + (Max[0]-Min[0])/deltaX)`. -/
def xNumSlicesRaw (s : Slicer) : ℤ :=
  goInt (1/2 + (s.irmf.Max 0 - s.irmf.Min 0) / s.deltaX)

/-- Raw rounded slice count along Y, as computed inside `NumYSlices` and
`RenderYSlices`. -/
def yNumSlicesRaw (s : Slicer) : ℤ :=
  goInt (1/2 + (s.irmf.Max 1 - s.irmf.Min 1) / s.deltaY)

/-- Raw rounded slice count along Z, as computed inside `NumZSlices` and
`RenderZSlices`. -/
def zNumSlicesRaw (s : Slicer) : ℤ :=
  goInt (1/2 + (s.irmf.Max 2 - s.irmf.Min 2) / s.deltaZ)

/-- `Slicer.NumXSlices` of `irmf/renderer.go`: the raw rounded X count,
incremented by one when odd (Go `n%2 == 1` is truncated mod). -/
def NumXSlices (s : Slicer) : ℤ :=
  let n := xNumSlicesRaw s
  if n.tmod 2 = 1 then n + 1 else n

/-- `Slicer.NumYSlices` of `irmf/renderer.go`: the raw rounded Y count,
incremented by one when the raw rounded X count is odd. -/
def NumYSlices (s : Slicer) : ℤ :=
  let nx := xNumSlicesRaw s
  let ny := yNumSlicesRaw s
  if nx.tmod 2 = 1 then ny + 1 else ny

/-- `Slicer.NumZSlices` of `irmf/renderer.go`: the raw rounded Z count, with
no parity adjustment. -/
def NumZSlices (s : Slicer) : ℤ := zNumSlicesRaw s

/-- `Slicer.NumMaterials` of `irmf/renderer.go` (model loaded). -/
def NumMaterials (s : Slicer) : ℕ := s.irmf.Materials.length

/-- `Slicer.MaterialName` of `irmf/renderer.go` (model loaded): the name of
the n-th material, 1-based; the empty string when out of range.  (Go would
panic for `n = 0`; all callers use `n ≥ 1`, and `getD` keeps the embedding
total.) -/
def MaterialName (s : Slicer) (n : ℕ) : String :=
  if n > s.irmf.Materials.length then "" else s.irmf.Materials.getD (n - 1) ""

/-- Voxel accumulator state of the external stldice `binvox.BinVOX` as used by
`binvox/binvox.go`: declared grid dimensions, translation/scale metadata and
the set of occupied voxel keys (the `WhiteVoxels` map keys; `Add` records a
key). -/
structure BinVOX where
  NX : ℤ
  NY : ℤ
  NZ : ℤ
  TX : ℚ
  TY : ℚ
  TZ : ℚ
  Scale : ℚ
  voxels : Finset (ℤ × ℤ × ℤ)

/-- The pixels of a raster whose red channel is non-zero, iterated by the
double loop of `client.ProcessZSlice` (`v` over `[Min.Y, Max.Y)`, `u` over
`[Min.X, Max.X)`; the iteration order is irrelevant to the resulting set). -/
def occupiedPixels (img : Img) : Finset (ℤ × ℤ) :=
  ((Finset.Ico img.minX img.maxX) ×ˢ (Finset.Ico img.minY img.maxY)).filter
    (fun p => 0 < img.red p.1 p.2)

/-- `client.ProcessZSlice` of `binvox/binvox.go`: record the raster's width
and height as `NX`/`NY`, call `Add(u, v, sliceNum)` for every pixel whose red
channel is non-zero, and return success. -/
def ProcessZSlice (b : BinVOX) (sliceNum : ℕ) (_z _voxelRadius : ℚ) (img : Img) :
    BinVOX × Except String Unit :=
  let uSize := img.maxX - img.minX
  let vSize := img.maxY - img.minY
  ({ b with
      NX := uSize
      NY := vSize
      voxels := b.voxels ∪ (occupiedPixels img).image
        (fun p => (p.1, p.2, (sliceNum : ℤ))) },
    Except.ok ())

/-- Slice-processing order (`irmf.Order`). -/
inductive Order where
  | MinToMax : Order
  | MaxToMin : Order
deriving DecidableEq

/-- An error escaping a sweep, mirroring the wrapping done by
`Render{X,Y,Z}Slices`: `fmt.Errorf("render?Slice(%v,%v): %v", depth,
materialNum, err)` for a backend failure, and
`fmt.Errorf("ProcessSlice(%v,%v,%v): %v", n, depth, voxelRadius, err)` for a
processor failure.  The constructor arguments are the wrapped context. -/
inductive SweepError where
  | renderFail (depth : ℚ) (materialNum : ℤ) (msg : String) : SweepError
  | processFail (n : ℕ) (depth : ℚ) (voxelRadius : ℚ) (msg : String) : SweepError
deriving DecidableEq

/-- Observable outcome of one sweep: the slice indices whose backend render
succeeded (in order), the slice indices at which the processor was invoked
(in order), the final processor state, and the returned value. -/
structure SweepResult (σ : Type) where
  renders : List ℕ
  procs : List ℕ
  state : σ
  result : Except SweepError Unit

/-- `Slicer.renderSlice` of `irmf/renderer.go`: error when no backend is
installed, otherwise delegate to the backend's `Render`. -/
def renderSlice (s : Slicer) (sliceDepth : ℚ) (materialNum : ℤ) :
    Except String Img :=
  match s.renderer with
  | none => Except.error "renderer not initialized"
  | some r => r.render sliceDepth materialNum

/-- A slice processor with explicit state `σ` (the Go processors are stateful
objects): given the state and `(sliceNum, depth, voxelRadius, img)`, produce
the next state and a result. -/
def SliceProcessor (σ : Type) : Type :=
  σ → ℕ → ℚ → ℚ → Img → σ × Except String Unit

/-- The body of the `for n := 0; n < numSlices; n++` loop shared by
`Render{X,Y,Z}Slices`: render the slice at `depthFn n`, abort with a wrapped
error on failure; otherwise invoke the processor, abort with a wrapped error
on failure; otherwise continue with the remaining indices. -/
def sweepLoop {σ : Type} (s : Slicer) (materialNum : ℤ) (sp : SliceProcessor σ)
    (depthFn : ℕ → ℚ) (voxelRadius : ℚ) : List ℕ → σ → SweepResult σ
  | [], st => ⟨[], [], st, Except.ok ()⟩
  | n :: rest, st =>
    match renderSlice s (depthFn n) materialNum with
    | Except.error e =>
      ⟨[], [], st, Except.error (SweepError.renderFail (depthFn n) materialNum e)⟩
    | Except.ok img =>
      match sp st n (depthFn n) voxelRadius img with
      | (st2, Except.error e) =>
        ⟨[n], [n], st2,
          Except.error (SweepError.processFail n (depthFn n) voxelRadius e)⟩
      | (st2, Except.ok _) =>
        let r := sweepLoop s materialNum sp depthFn voxelRadius rest st2
        ⟨n :: r.renders, n :: r.procs, r.state, r.result⟩

/-- Depth of the n-th X voxel center: `minVal + float32(n)*deltaX` with
`minVal = Min[0] + 0.5*deltaX` (`RenderXSlices`). -/
def xCenter (s : Slicer) (n : ℤ) : ℚ :=
  (s.irmf.Min 0 + 1/2 * s.deltaX) + (n : ℚ) * s.deltaX

/-- Depth of the n-th Y voxel center (`RenderYSlices`). -/
def yCenter (s : Slicer) (n : ℤ) : ℚ :=
  (s.irmf.Min 1 + 1/2 * s.deltaY) + (n : ℚ) * s.deltaY

/-- Depth of the n-th Z voxel center (`RenderZSlices`). -/
def zCenter (s : Slicer) (n : ℤ) : ℚ :=
  (s.irmf.Min 2 + 1/2 * s.deltaZ) + (n : ℚ) * s.deltaZ

/-- The `xFunc` closure of `RenderXSlices`, by order. -/
def xDepthFn (s : Slicer) (order : Order) (numSlices : ℤ) : ℕ → ℚ :=
  match order with
  | Order.MinToMax => fun n => xCenter s n
  | Order.MaxToMin => fun n => xCenter s (numSlices - n - 1)

/-- The `yFunc` closure of `RenderYSlices`, by order. -/
def yDepthFn (s : Slicer) (order : Order) (numSlices : ℤ) : ℕ → ℚ :=
  match order with
  | Order.MinToMax => fun n => yCenter s n
  | Order.MaxToMin => fun n => yCenter s (numSlices - n - 1)

/-- The `zFunc` closure of `RenderZSlices`, by order. -/
def zDepthFn (s : Slicer) (order : Order) (numSlices : ℤ) : ℕ → ℚ :=
  match order with
  | Order.MinToMax => fun n => zCenter s n
  | Order.MaxToMin => fun n => zCenter s (numSlices - n - 1)

/-- `Slicer.RenderXSlices` of `irmf/renderer.go`: sweep the raw rounded X
slice count (note: not `NumXSlices`) with voxel radius `0.5*deltaX`. -/
def RenderXSlices {σ : Type} (s : Slicer) (materialNum : ℤ)
    (sp : SliceProcessor σ) (order : Order) (st : σ) : SweepResult σ :=
  let numSlices := xNumSlicesRaw s
  sweepLoop s materialNum sp (xDepthFn s order numSlices) (1/2 * s.deltaX)
    (List.range numSlices.toNat) st

/-- `Slicer.RenderYSlices` of `irmf/renderer.go`. -/
def RenderYSlices {σ : Type} (s : Slicer) (materialNum : ℤ)
    (sp : SliceProcessor σ) (order : Order) (st : σ) : SweepResult σ :=
  let numSlices := yNumSlicesRaw s
  sweepLoop s materialNum sp (yDepthFn s order numSlices) (1/2 * s.deltaY)
    (List.range numSlices.toNat) st

/-- `Slicer.RenderZSlices` of `irmf/renderer.go`. -/
def RenderZSlices {σ : Type} (s : Slicer) (materialNum : ℤ)
    (sp : SliceProcessor σ) (order : Order) (st : σ) : SweepResult σ :=
  let numSlices := zNumSlicesRaw s
  sweepLoop s materialNum sp (zDepthFn s order numSlices) (1/2 * s.deltaZ)
    (List.range numSlices.toNat) st

/-- The width/height adjustment at the top of `Slicer.prepareRender`: if the
width is odd (Go `newWidth%2 == 1`, truncated mod), increment both width and
height. The result is what is passed to the backend's `Init`. -/
def prepareRenderInitArgs (newWidth newHeight : ℤ) : ℤ × ℤ :=
  if newWidth.tmod 2 = 1 then (newWidth + 1, newHeight + 1)
  else (newWidth, newHeight)

/-- `Slicer.prepareRender` of `irmf/renderer.go`, keeping only the
claim-relevant behavior: the width/height parity fix, the nil-renderer check,
the `Init` call and the `Prepare` call.  (Projection and camera setup have no
bearing on the claims.) -/
def prepareRender (s : Slicer) (newWidth newHeight : ℤ) : Except String Unit :=
  let args := prepareRenderInitArgs newWidth newHeight
  match s.renderer with
  | none => Except.error "renderer not initialized"
  | some r =>
    match r.init args.1 args.2 s.view with
    | Except.error e => Except.error e
    | Except.ok _ => r.prepare

/-- The `(newWidth, newHeight)` computed by `Slicer.PrepareRenderX` before the
call to `prepareRender`: raw rounded raster dimensions from the in-plane (Y,
Z) extents, with the height grown when `aspectRatio*newHeight < newWidth`. -/
def prepareRenderXArgs (s : Slicer) : ℤ × ℤ :=
  let left := s.irmf.Min 1
  let right := s.irmf.Max 1
  let bottom := s.irmf.Min 2
  let top := s.irmf.Max 2
  let aspectRatio := ((right - left) * s.deltaZ) / ((top - bottom) * s.deltaY)
  let newWidth := goInt (1/2 + (right - left) / s.deltaY)
  let newHeight := goInt (1/2 + (top - bottom) / s.deltaZ)
  if aspectRatio * (newHeight : ℚ) < (newWidth : ℚ) then
    (newWidth, goInt (1/2 + (newWidth : ℚ) / aspectRatio))
  else (newWidth, newHeight)

/-- The `(newWidth, newHeight)` computed by `Slicer.PrepareRenderY` (in-plane
axes X, Z). -/
def prepareRenderYArgs (s : Slicer) : ℤ × ℤ :=
  let left := s.irmf.Min 0
  let right := s.irmf.Max 0
  let bottom := s.irmf.Min 2
  let top := s.irmf.Max 2
  let aspectRatio := ((right - left) * s.deltaZ) / ((top - bottom) * s.deltaX)
  let newWidth := goInt (1/2 + (right - left) / s.deltaX)
  let newHeight := goInt (1/2 + (top - bottom) / s.deltaZ)
  if aspectRatio * (newHeight : ℚ) < (newWidth : ℚ) then
    (newWidth, goInt (1/2 + (newWidth : ℚ) / aspectRatio))
  else (newWidth, newHeight)

/-- The `(newWidth, newHeight)` computed by `Slicer.PrepareRenderZ` (in-plane
axes X, Y). -/
def prepareRenderZArgs (s : Slicer) : ℤ × ℤ :=
  let left := s.irmf.Min 0
  let right := s.irmf.Max 0
  let bottom := s.irmf.Min 1
  let top := s.irmf.Max 1
  let aspectRatio := ((right - left) * s.deltaY) / ((top - bottom) * s.deltaX)
  let newWidth := goInt (1/2 + (right - left) / s.deltaX)
  let newHeight := goInt (1/2 + (top - bottom) / s.deltaY)
  if aspectRatio * (newHeight : ℚ) < (newWidth : ℚ) then
    (newWidth, goInt (1/2 + (newWidth : ℚ) / aspectRatio))
  else (newWidth, newHeight)

/-- `Slicer.PrepareRenderX` of `irmf/renderer.go` (claim-relevant part). -/
def PrepareRenderX (s : Slicer) : Except String Unit :=
  prepareRender s (prepareRenderXArgs s).1 (prepareRenderXArgs s).2

/-- `Slicer.PrepareRenderY` of `irmf/renderer.go` (claim-relevant part). -/
def PrepareRenderY (s : Slicer) : Except String Unit :=
  prepareRender s (prepareRenderYArgs s).1 (prepareRenderYArgs s).2

/-- `Slicer.PrepareRenderZ` of `irmf/renderer.go` (claim-relevant part). -/
def PrepareRenderZ (s : Slicer) : Except String Unit :=
  prepareRender s (prepareRenderZArgs s).1 (prepareRenderZArgs s).2

/-- Go's `fmt.Sprintf("%02d", m)`: the decimal digits of `m`, left-padded
with zeros to a minimum width of two. -/
def format02d (m : ℕ) : String :=
  String.mk (List.replicate (2 - (toString m).length) '0' ++ (toString m).data)

/-- Go's `strings.ReplaceAll(name, " ", "-")` of `binvox.Slice`: with a
single-character pattern this replaces each space character by a hyphen and
leaves every other character unchanged. -/
def sanitizeMaterialName (name : String) : String :=
  String.mk (name.data.map (fun c => if c = ' ' then '-' else c))

/-- The artifact filename built by `binvox.Slice`:
`fmt.Sprintf("%v-mat%02d-%v.binvox", baseFilename, materialNum,
materialName)` with `materialName` the sanitized display name. -/
def binvoxFilename (baseFilename : String) (materialNum : ℕ) (name : String) :
    String :=
  baseFilename ++ "-mat" ++ format02d materialNum ++ "-" ++
    sanitizeMaterialName name ++ ".binvox"

/-- An error escaping `binvox.Slice`, wrapping the failing step as the Go
code does (`"PrepareRenderZ: %v"` / `"RenderZSlices: %v"`). -/
inductive SliceError where
  | prepFail (msg : String) : SliceError
  | sweepFail (e : SweepError) : SliceError
deriving DecidableEq

/-- One iteration of the material loop of `binvox.Slice`
(`binvox/binvox.go`): build the filename, create the accumulator with
dimensions `NumXSlices × NumYSlices × NumZSlices`, translation `min` and
scale `max[2]-min[2]`, prepare the Z frame, sweep the Z slices `MinToMax`
through the `client.ProcessZSlice` processor, and persist.  The external
stldice `Write` is modeled as returning the `(filename, accumulator)` pair
that it persists. -/
def sliceMaterial (baseFilename : String) (s : Slicer) (materialNum : ℕ) :
    Except SliceError (String × BinVOX) :=
  let filename := binvoxFilename baseFilename materialNum
    (MaterialName s materialNum)
  let b0 : BinVOX :=
    { NX := NumXSlices s
      NY := NumYSlices s
      NZ := NumZSlices s
      TX := s.irmf.Min 0
      TY := s.irmf.Min 1
      TZ := s.irmf.Min 2
      Scale := s.irmf.Max 2 - s.irmf.Min 2
      voxels := ∅ }
  match PrepareRenderZ s with
  | Except.error e => Except.error (SliceError.prepFail e)
  | Except.ok _ =>
    let r := RenderZSlices s (materialNum : ℤ) ProcessZSlice Order.MinToMax b0
    match r.result with
    | Except.error e => Except.error (SliceError.sweepFail e)
    | Except.ok _ => Except.ok (filename, r.state)

/-- The material loop of `binvox.Slice` over a list of 1-based material
ordinals, aborting on the first error. -/
def sliceMaterialLoop (baseFilename : String) (s : Slicer) :
    List ℕ → Except SliceError (List (String × BinVOX))
  | [] => Except.ok []
  | m :: rest =>
    match sliceMaterial baseFilename s m with
    | Except.error e => Except.error e
    | Except.ok a =>
      match sliceMaterialLoop baseFilename s rest with
      | Except.error e => Except.error e
      | Except.ok l => Except.ok (a :: l)

/-- `binvox.Slice`: one artifact per material, materials numbered
`1 .. NumMaterials`. -/
def Slice (baseFilename : String) (s : Slicer) :
    Except SliceError (List (String × BinVOX)) :=
  sliceMaterialLoop baseFilename s
    ((List.range (NumMaterials s)).map (fun i => i + 1))

/-- The artifacts a `Slice` run persisted (empty when it failed). -/
def writtenArtifacts (r : Except SliceError (List (String × BinVOX))) :
    List (String × BinVOX) :=
  match r with
  | Except.ok l => l
  | Except.error _ => []

/-- The two concrete backend implementations selected by `Slicer.NewModel`
(`*OpenGLRenderer` and `*WebGPURenderer`). -/
inductive BackendKind where
  | opengl : BackendKind
  | webgpu : BackendKind
deriving DecidableEq

/-- A live backend instance, identified by its kind and an allocation id (so
that reuse versus recreation is observable). -/
structure BackendHandle where
  kind : BackendKind
  id : ℕ
deriving DecidableEq

/-- Lifecycle events emitted by the backend-selection logic of
`Slicer.NewModel`: closing a previously held backend, installing a new one. -/
inductive LifeEvent where
  | closed (b : BackendHandle) : LifeEvent
  | installed (b : BackendHandle) : LifeEvent
deriving DecidableEq

/-- The backend-selection `switch irmf.Language` of `Slicer.NewModel`
(`irmf/renderer.go` lines 61-76): for `"glsl"` or the empty tag, when the
held backend is not an `OpenGLRenderer`, close the held backend (if any) and
install a fresh `OpenGLRenderer`; symmetrically for `"wgsl"` and
`WebGPURenderer`; any other tag leaves the held backend untouched.  `fresh`
is the id given to a newly allocated instance; the event list records, in
order, the `Close` and install actions performed. -/
def newModelRenderer (r : Option BackendHandle) (lang : String) (fresh : ℕ) :
    Option BackendHandle × List LifeEvent :=
  if lang = "glsl" ∨ lang = "" then
    match r with
    | some b =>
      if b.kind = BackendKind.opengl then (some b, [])
      else
        (some ⟨BackendKind.opengl, fresh⟩,
          [LifeEvent.closed b, LifeEvent.installed ⟨BackendKind.opengl, fresh⟩])
    | none =>
      (some ⟨BackendKind.opengl, fresh⟩,
        [LifeEvent.installed ⟨BackendKind.opengl, fresh⟩])
  else if lang = "wgsl" then
    match r with
    | some b =>
      if b.kind = BackendKind.webgpu then (some b, [])
      else
        (some ⟨BackendKind.webgpu, fresh⟩,
          [LifeEvent.closed b, LifeEvent.installed ⟨BackendKind.webgpu, fresh⟩])
    | none =>
      (some ⟨BackendKind.webgpu, fresh⟩,
        [LifeEvent.installed ⟨BackendKind.webgpu, fresh⟩])
  else (r, [])

/-- `Slicer.NewModel` after a successful model parse: run the backend
selection switch and return nil error (the switch has no failing branch). -/
def NewModel (r : Option BackendHandle) (m : IRMF) (fresh : ℕ) :
    Except String (Option BackendHandle × List LifeEvent) :=
  Except.ok (newModelRenderer r m.Language fresh)

/-- The backend kind that the shading-language tag requires, `none` when the
tag selects no backend.  (Claim-side helper used only in theorem
statements.) -/
def requiredKind (lang : String) : Option BackendKind :=
  if lang = "glsl" ∨ lang = "" then some BackendKind.opengl
  else if lang = "wgsl" then some BackendKind.webgpu
  else none

/-- A fully white 3×3 raster (red channel saturated at every pixel). -/
def whiteImg3 : Img :=
  { minX := 0, minY := 0, maxX := 3, maxY := 3, red := fun _ _ => 65535 }

/-- A backend whose calls all succeed and whose every rendered raster is the
fully white 3×3 raster. -/
def okRenderer3 : Renderer :=
  { init := fun _ _ _ => Except.ok ()
    prepare := Except.ok ()
    render := fun _ _ => Except.ok whiteImg3 }

/-- The model of the spec's scenario: bounding box `min=(0,0,0)`,
`max=(3,3,3)`, a single material named `"test material"`. -/
def c1Model : IRMF :=
  { Min := ![0, 0, 0]
    Max := ![3, 3, 3]
    Materials := ["test material"]
    Language := "glsl"
    Shader := "" }

/-- The scenario slicer: `delta = 1` on every axis, every rendered raster
fully white 3×3. -/
def c1Slicer : Slicer :=
  { irmf := c1Model
    deltaX := 1
    deltaY := 1
    deltaZ := 1
    view := false
    renderer := some okRenderer3 }

/-- The scenario slicer with no backend installed. -/
def noRendererSlicer : Slicer :=
  { c1Slicer with renderer := none }

/-- A degenerate model (zero extent, so zero slices) carrying 100 materials
all named `"x"`. -/
def mat100Model : IRMF :=
  { Min := ![0, 0, 0]
    Max := ![0, 0, 0]
    Materials := List.replicate 100 "x"
    Language := "glsl"
    Shader := "" }

/-- A slicer for `mat100Model`. -/
def mat100Slicer : Slicer :=
  { irmf := mat100Model
    deltaX := 1
    deltaY := 1
    deltaZ := 1
    view := false
    renderer := some okRenderer3 }

/-- The processor-state fold realized by an all-successful sweep. -/
def sweepFold {σ : Type} (sp : SliceProcessor σ) (depthFn : ℕ → ℚ)
    (voxelRadius : ℚ) (imgf : ℕ → Img) (l : List ℕ) (st : σ) : σ :=
  l.foldl (fun a n => (sp a n (depthFn n) voxelRadius (imgf n)).1) st

/-- The error carried by a sweep result, if any. -/
def errOf (r : Except SweepError Unit) : Option SweepError :=
  match r with
  | Except.error e => some e
  | Except.ok _ => none

/-- A slice processor that accepts every slice and keeps no state. -/
def okSP : SliceProcessor Unit := fun _ _ _ _ _ => ((), Except.ok ())

/-- A slice processor that fails at slice index 1 and accepts all others. -/
def boomSP : SliceProcessor Unit := fun _ n _ _ _ =>
  ((), if n = 1 then Except.error "boom" else Except.ok ())

/-- A slice processor that records each `(sliceNum, depth)` it receives, in
order. -/
def depthLogger : SliceProcessor (List (ℕ × ℚ)) := fun st n d _ _ =>
  (st ++ [(n, d)], Except.ok ())

/-- The scenario model with an unknown shading-language tag. -/
def hlslModel : IRMF := { c1Model with Language := "hlsl" }

/-- The artifact `sliceMaterial` produces for material 1 of `mat100Slicer`
(zero-extent box: zero slices, empty voxel set). -/
def mat100Artifact : String × BinVOX :=
  ("b-mat01-x.binvox",
    { NX := 0, NY := 0, NZ := 0, TX := 0, TY := 0, TZ := 0, Scale := 0,
      voxels := ∅ })

section Lemmas

/-- On nonnegative arguments Go's truncation is the floor. -/
lemma goInt_of_nonneg {x : ℚ} (h : 0 ≤ x) : goInt x = ⌊x⌋ := if_pos h

/-- Go's `int(0.5 + x)` is mathematical rounding for nonnegative `x`. -/
lemma goInt_half_add_eq_round {x : ℚ} (h : 0 ≤ x) : goInt (1/2 + x) = round x := by
  rw [goInt_of_nonneg (by linarith), round_eq, add_comm]

/-- Go's `n % 2 == 1` test agrees with oddness on nonnegative `n`. -/
lemma tmod_two_eq_one_iff_odd {n : ℤ} (h : 0 ≤ n) : n.tmod 2 = 1 ↔ Odd n := by
  rw [Int.tmod_eq_emod h (by norm_num)]
  exact Int.odd_iff.symm

/-- A sweep over indices on which the backend and the processor both succeed
renders every index, invokes the processor at every index in order, folds the
state, and returns success. -/
lemma sweepLoop_ok {σ : Type} (s : Slicer) (materialNum : ℤ)
    (sp : SliceProcessor σ) (depthFn : ℕ → ℚ) (vr : ℚ) (imgf : ℕ → Img) :
    ∀ (l : List ℕ) (st : σ),
    (∀ n ∈ l, renderSlice s (depthFn n) materialNum = Except.ok (imgf n)) →
    (∀ st2 img n, n ∈ l → (sp st2 n (depthFn n) vr img).2 = Except.ok ()) →
    sweepLoop s materialNum sp depthFn vr l st =
      ⟨l, l, sweepFold sp depthFn vr imgf l st, Except.ok ()⟩ := by
  intro l
  induction l with
  | nil => intro st _ _; rfl
  | cons n rest ih =>
    intro st hrender hsp
    have hr : renderSlice s (depthFn n) materialNum = Except.ok (imgf n) :=
      hrender n (List.mem_cons_self n rest)
    have hs := hsp st (imgf n) n (List.mem_cons_self n rest)
    rcases hsp2 : sp st n (depthFn n) vr (imgf n) with ⟨st2, res2⟩
    rw [hsp2] at hs
    simp only at hs
    subst hs
    have ihr := ih st2 (fun m hm => hrender m (List.mem_cons_of_mem n hm))
      (fun st3 img m hm => hsp st3 img m (List.mem_cons_of_mem n hm))
    simp only [sweepLoop, hr, hsp2, ihr, sweepFold, List.foldl_cons]

/-- A sweep whose backend fails at index `k`, after indices on which both
steps succeed, renders and processes exactly those earlier indices and
returns the wrapped render error. -/
lemma sweepLoop_render_fail {σ : Type} (s : Slicer) (materialNum : ℤ)
    (sp : SliceProcessor σ) (depthFn : ℕ → ℚ) (vr : ℚ) (imgf : ℕ → Img)
    (k : ℕ) (msg : String) (l2 : List ℕ) :
    ∀ (l1 : List ℕ) (st : σ),
    (∀ n ∈ l1, renderSlice s (depthFn n) materialNum = Except.ok (imgf n)) →
    (∀ st2 img n, n ∈ l1 → (sp st2 n (depthFn n) vr img).2 = Except.ok ()) →
    renderSlice s (depthFn k) materialNum = Except.error msg →
    sweepLoop s materialNum sp depthFn vr (l1 ++ k :: l2) st =
      ⟨l1, l1, sweepFold sp depthFn vr imgf l1 st,
        Except.error (SweepError.renderFail (depthFn k) materialNum msg)⟩ := by
  intro l1
  induction l1 with
  | nil =>
    intro st _ _ hfail
    simp only [List.nil_append, sweepLoop, hfail, sweepFold, List.foldl_nil]
  | cons n rest ih =>
    intro st hrender hsp hfail
    have hr : renderSlice s (depthFn n) materialNum = Except.ok (imgf n) :=
      hrender n (List.mem_cons_self n rest)
    have hs := hsp st (imgf n) n (List.mem_cons_self n rest)
    rcases hsp2 : sp st n (depthFn n) vr (imgf n) with ⟨st2, res2⟩
    rw [hsp2] at hs
    simp only at hs
    subst hs
    have ihr := ih st2 (fun m hm => hrender m (List.mem_cons_of_mem n hm))
      (fun st3 img m hm => hsp st3 img m (List.mem_cons_of_mem n hm)) hfail
    simp only [List.cons_append, sweepLoop, hr, hsp2, List.append_eq]
    rw [ihr]
    simp [sweepFold, List.foldl_cons, hsp2]

/-- A sweep whose processor fails at index `k`, after indices on which both
steps succeed, invokes the processor at the earlier indices and at `k`
itself, and returns the wrapped processor error. -/
lemma sweepLoop_process_fail {σ : Type} (s : Slicer) (materialNum : ℤ)
    (sp : SliceProcessor σ) (depthFn : ℕ → ℚ) (vr : ℚ) (imgf : ℕ → Img)
    (k : ℕ) (msg : String) (l2 : List ℕ) :
    ∀ (l1 : List ℕ) (st : σ),
    (∀ n ∈ l1, renderSlice s (depthFn n) materialNum = Except.ok (imgf n)) →
    (∀ st2 img n, n ∈ l1 → (sp st2 n (depthFn n) vr img).2 = Except.ok ()) →
    renderSlice s (depthFn k) materialNum = Except.ok (imgf k) →
    (∀ st2, (sp st2 k (depthFn k) vr (imgf k)).2 = Except.error msg) →
    sweepLoop s materialNum sp depthFn vr (l1 ++ k :: l2) st =
      ⟨l1 ++ [k], l1 ++ [k],
        (sp (sweepFold sp depthFn vr imgf l1 st) k (depthFn k) vr (imgf k)).1,
        Except.error (SweepError.processFail k (depthFn k) vr msg)⟩ := by
  intro l1
  induction l1 with
  | nil =>
    intro st _ _ hrk hspk
    have hs := hspk st
    rcases hsp2 : sp st k (depthFn k) vr (imgf k) with ⟨st2, res2⟩
    rw [hsp2] at hs
    simp only at hs
    subst hs
    simp only [List.nil_append, sweepLoop, hrk, hsp2, sweepFold, List.foldl_nil]
  | cons n rest ih =>
    intro st hrender hsp hrk hspk
    have hr : renderSlice s (depthFn n) materialNum = Except.ok (imgf n) :=
      hrender n (List.mem_cons_self n rest)
    have hs := hsp st (imgf n) n (List.mem_cons_self n rest)
    rcases hsp2 : sp st n (depthFn n) vr (imgf n) with ⟨st2, res2⟩
    rw [hsp2] at hs
    simp only at hs
    subst hs
    have ihr := ih st2 (fun m hm => hrender m (List.mem_cons_of_mem n hm))
      (fun st3 img m hm => hsp st3 img m (List.mem_cons_of_mem n hm)) hrk hspk
    simp only [List.cons_append, sweepLoop, hr, hsp2, List.append_eq]
    rw [ihr]
    simp [sweepFold, List.foldl_cons, hsp2]

/-- Splitting `List.range N` at an index `k < N`. -/
lemma range_split {k N : ℕ} (h : k < N) :
    ∃ l2, List.range N = List.range k ++ k :: l2 := by
  refine ⟨(List.range (N - (k + 1))).map (fun i => (k + 1) + i), ?_⟩
  conv_lhs => rw [show N = (k + 1) + (N - (k + 1)) by omega]
  rw [List.range_add, List.range_succ, List.append_assoc]
  rfl

/-- Rounded nonnegative quantities are nonnegative. -/
lemma goInt_half_add_nonneg {x : ℚ} (h : 0 ≤ x) : 0 ≤ goInt (1/2 + x) := by
  rw [goInt_of_nonneg (by linarith)]
  exact Int.floor_nonneg.mpr (by linarith)

/-- The aspect-ratio correction of `PrepareRender{X,Y,Z}` never decreases the
height. -/
lemma grown_height_ge (w h : ℤ) (aspect : ℚ) (hw : 0 ≤ w) (ha : 0 < aspect) :
    h ≤ (if aspect * (h : ℚ) < (w : ℚ) then goInt (1/2 + (w : ℚ) / aspect)
      else h) := by
  split
  · next hlt =>
    have hdiv : (h : ℚ) < (w : ℚ) / aspect := by
      rw [lt_div_iff₀ ha]
      nlinarith
    have h0 : (0 : ℚ) ≤ (w : ℚ) / aspect :=
      div_nonneg (by exact_mod_cast hw) ha.le
    rw [goInt_of_nonneg (by linarith)]
    exact Int.le_floor.mpr (by linarith)
  · exact le_refl h

/-- The parity fix of `prepareRender` makes the width passed to `Init` even
(for the nonnegative widths that arise from positive extents). -/
lemma initArgs_even (w h : ℤ) (hw : 0 ≤ w) :
    Even (prepareRenderInitArgs w h).1 := by
  unfold prepareRenderInitArgs
  rw [Int.tmod_eq_emod hw (by norm_num)]
  rcases Int.emod_two_eq_zero_or_one w with h0 | h1
  · rw [if_neg (by omega)]
    exact Int.even_iff.mpr h0
  · rw [if_pos h1]
    exact (Int.odd_iff.mpr h1).add_one

/-- Folding the depth logger over a list of indices appends one record per
index, in order. -/
lemma foldl_append_log (f : ℕ → ℚ) :
    ∀ (l : List ℕ) (st : List (ℕ × ℚ)),
    l.foldl (fun a n => a ++ [(n, f n)]) st = st ++ l.map (fun n => (n, f n)) := by
  intro l
  induction l with
  | nil => intro st; simp
  | cons n rest ih =>
    intro st
    simp only [List.foldl_cons, List.map_cons, ih, List.append_assoc,
      List.singleton_append]

/-- With a backend installed, `renderSlice` is the backend's `Render`. -/
lemma renderSlice_some {s : Slicer} {r : Renderer} (hr : s.renderer = some r)
    (d : ℚ) (mat : ℤ) : renderSlice s d mat = r.render d mat := by
  simp [renderSlice, hr]

end Lemmas

/-- Claim C1, counterexample.  In the scenario (box `min=(0,0,0)`,
`max=(3,3,3)`, `delta=1` per axis) the claim asserts
`NumXSlices() = NumYSlices() = NumZSlices() = 3`; on the code the X and Y
counts are parity-corrected to 4, so the claim is false. -/
theorem claim_C1_counterexample :
    NumXSlices c1Slicer = 4 ∧ NumXSlices c1Slicer ≠ 3 ∧
    NumYSlices c1Slicer = 4 ∧ NumYSlices c1Slicer ≠ 3 ∧
    NumZSlices c1Slicer = 3 :=
  of_decide_eq_true (by with_unfolding_all rfl)

/-- Claim C1, amended.  In the scenario, `NumZSlices() = 3` but
`NumXSlices() = NumYSlices() = 4` (the odd raw count 3 is parity-corrected);
slicing the single material with every rendered raster fully white and of
size 3×3 (as the repository's own test does) yields a voxel accumulator
reporting `NX = NY = NZ = 3` with exactly 27 occupied cells. -/
theorem claim_C1_amended :
    NumZSlices c1Slicer = 3 ∧ NumXSlices c1Slicer = 4 ∧
    NumYSlices c1Slicer = 4 ∧
    (writtenArtifacts (Slice "test-solid" c1Slicer)).map
      (fun a => (a.2.NX, a.2.NY, a.2.NZ, a.2.voxels.card)) = [(3, 3, 3, 27)] :=
  of_decide_eq_true (by with_unfolding_all rfl)

/-- Claim C2.  For every model (with the bounding-box invariant
`min < max`) and positive per-axis deltas: `NumZSlices()` is
`round(extentZ/deltaZ)` with no parity adjustment, `NumXSlices()` is
`round(extentX/deltaX)` incremented by one exactly when that count is odd,
and `NumYSlices()` is `round(extentY/deltaY)` incremented by one exactly when
the X count `round(extentX/deltaX)` is odd, regardless of the parity of the Y
count itself. -/
theorem claim_C2_slice_counts (s : Slicer)
    (hx : s.irmf.Min 0 < s.irmf.Max 0) (hy : s.irmf.Min 1 < s.irmf.Max 1)
    (hz : s.irmf.Min 2 < s.irmf.Max 2) (hdx : 0 < s.deltaX)
    (hdy : 0 < s.deltaY) (hdz : 0 < s.deltaZ) :
    NumZSlices s = round ((s.irmf.Max 2 - s.irmf.Min 2) / s.deltaZ) ∧
    (Odd (round ((s.irmf.Max 0 - s.irmf.Min 0) / s.deltaX)) →
      NumXSlices s = round ((s.irmf.Max 0 - s.irmf.Min 0) / s.deltaX) + 1 ∧
      NumYSlices s = round ((s.irmf.Max 1 - s.irmf.Min 1) / s.deltaY) + 1) ∧
    (¬Odd (round ((s.irmf.Max 0 - s.irmf.Min 0) / s.deltaX)) →
      NumXSlices s = round ((s.irmf.Max 0 - s.irmf.Min 0) / s.deltaX) ∧
      NumYSlices s = round ((s.irmf.Max 1 - s.irmf.Min 1) / s.deltaY)) := by
  have hxq : (0 : ℚ) ≤ (s.irmf.Max 0 - s.irmf.Min 0) / s.deltaX :=
    le_of_lt (div_pos (sub_pos.mpr hx) hdx)
  have hyq : (0 : ℚ) ≤ (s.irmf.Max 1 - s.irmf.Min 1) / s.deltaY :=
    le_of_lt (div_pos (sub_pos.mpr hy) hdy)
  have hzq : (0 : ℚ) ≤ (s.irmf.Max 2 - s.irmf.Min 2) / s.deltaZ :=
    le_of_lt (div_pos (sub_pos.mpr hz) hdz)
  have hxraw : xNumSlicesRaw s = round ((s.irmf.Max 0 - s.irmf.Min 0) / s.deltaX) :=
    goInt_half_add_eq_round hxq
  have hyraw : yNumSlicesRaw s = round ((s.irmf.Max 1 - s.irmf.Min 1) / s.deltaY) :=
    goInt_half_add_eq_round hyq
  have hzraw : zNumSlicesRaw s = round ((s.irmf.Max 2 - s.irmf.Min 2) / s.deltaZ) :=
    goInt_half_add_eq_round hzq
  have hxnn : 0 ≤ xNumSlicesRaw s := goInt_half_add_nonneg hxq
  have hpar := tmod_two_eq_one_iff_odd hxnn
  refine ⟨hzraw, ?_, ?_⟩
  · intro hodd
    have ht : (xNumSlicesRaw s).tmod 2 = 1 := hpar.mpr (hxraw ▸ hodd)
    constructor
    · simp only [NumXSlices]
      rw [if_pos ht, hxraw]
    · simp only [NumYSlices]
      rw [if_pos ht, hyraw]
  · intro heven
    have ht : ¬(xNumSlicesRaw s).tmod 2 = 1 := fun h => heven (hxraw ▸ hpar.mp h)
    constructor
    · simp only [NumXSlices]
      rw [if_neg ht, hxraw]
    · simp only [NumYSlices]
      rw [if_neg ht, hyraw]

/-- Witness for claim C2, at the scenario slicer. -/
theorem claim_C2_slice_counts_witness :
    c1Slicer.irmf.Min 0 < c1Slicer.irmf.Max 0 ∧ (0 : ℚ) < c1Slicer.deltaX ∧
    NumZSlices c1Slicer =
      round ((c1Slicer.irmf.Max 2 - c1Slicer.irmf.Min 2) / c1Slicer.deltaZ) := by
  have h1 : c1Slicer.irmf.Min 0 < c1Slicer.irmf.Max 0 :=
    of_decide_eq_true (by with_unfolding_all rfl)
  have h2 : c1Slicer.irmf.Min 1 < c1Slicer.irmf.Max 1 :=
    of_decide_eq_true (by with_unfolding_all rfl)
  have h3 : c1Slicer.irmf.Min 2 < c1Slicer.irmf.Max 2 :=
    of_decide_eq_true (by with_unfolding_all rfl)
  have h4 : (0 : ℚ) < c1Slicer.deltaX := of_decide_eq_true (by with_unfolding_all rfl)
  have h5 : (0 : ℚ) < c1Slicer.deltaY := of_decide_eq_true (by with_unfolding_all rfl)
  have h6 : (0 : ℚ) < c1Slicer.deltaZ := of_decide_eq_true (by with_unfolding_all rfl)
  exact ⟨h1, h4, (claim_C2_slice_counts c1Slicer h1 h2 h3 h4 h5 h6).1⟩

/-- Claim C7.  Every `ProcessZSlice(sliceNum, z, voxelRadius, img)` call
records the raster's width and height as the accumulator's `NX` and `NY`,
marks `(u, v, sliceNum)` occupied for exactly those pixels of the raster
whose red channel is non-zero (leaving other layers untouched), and returns
success unconditionally — in particular a raster with no red pixels adds no
voxels and is not an error. -/
theorem claim_C7_process_z_slice (b : BinVOX) (sliceNum : ℕ) (z vr : ℚ)
    (img : Img) :
    (ProcessZSlice b sliceNum z vr img).2 = Except.ok () ∧
    (ProcessZSlice b sliceNum z vr img).1.NX = img.maxX - img.minX ∧
    (ProcessZSlice b sliceNum z vr img).1.NY = img.maxY - img.minY ∧
    (∀ u v : ℤ,
      (u, v, (sliceNum : ℤ)) ∈ (ProcessZSlice b sliceNum z vr img).1.voxels ↔
        ((u, v, (sliceNum : ℤ)) ∈ b.voxels ∨
          (img.minX ≤ u ∧ u < img.maxX ∧ img.minY ≤ v ∧ v < img.maxY ∧
            0 < img.red u v))) ∧
    (∀ u v w : ℤ, w ≠ (sliceNum : ℤ) →
      ((u, v, w) ∈ (ProcessZSlice b sliceNum z vr img).1.voxels ↔
        (u, v, w) ∈ b.voxels)) := by
  refine ⟨rfl, rfl, rfl, ?_, ?_⟩
  · intro u v
    simp only [ProcessZSlice, occupiedPixels, Finset.mem_union, Finset.mem_image,
      Finset.mem_filter, Finset.mem_product, Finset.mem_Ico, Prod.mk.injEq]
    constructor
    · rintro (hb | ⟨⟨pu, pv⟩, ⟨⟨⟨hu1, hu2⟩, hv1, hv2⟩, hred⟩, he1, he2, _⟩)
      · exact Or.inl hb
      · subst he1; subst he2
        exact Or.inr ⟨hu1, hu2, hv1, hv2, hred⟩
    · rintro (hb | ⟨hu1, hu2, hv1, hv2, hred⟩)
      · exact Or.inl hb
      · refine Or.inr ⟨⟨u, v⟩, ⟨⟨⟨hu1, hu2⟩, hv1, hv2⟩, hred⟩, ?_⟩
        simp
  · intro u v w hw
    simp only [ProcessZSlice, Finset.mem_union, Finset.mem_image]
    constructor
    · rintro (hb | ⟨⟨pu, pv⟩, hmem, he⟩)
      · exact hb
      · exact absurd (congrArg (fun t => t.2.2) he).symm hw
    · exact fun hb => Or.inl hb

/-- Witness for claim C7, at a concrete accumulator and raster. -/
theorem claim_C7_process_z_slice_witness :
    (ProcessZSlice
        ⟨0, 0, 0, 0, 0, 0, 0, ∅⟩ 0 (1/2) (1/2) whiteImg3).2 = Except.ok () ∧
    (ProcessZSlice
        ⟨0, 0, 0, 0, 0, 0, 0, ∅⟩ 0 (1/2) (1/2) whiteImg3).1.NX =
      whiteImg3.maxX - whiteImg3.minX :=
  ⟨(claim_C7_process_z_slice ⟨0, 0, 0, 0, 0, 0, 0, ∅⟩ 0 (1/2) (1/2)
      whiteImg3).1,
    (claim_C7_process_z_slice ⟨0, 0, 0, 0, 0, 0, 0, ∅⟩ 0 (1/2) (1/2)
      whiteImg3).2.1⟩

/-- Claim C3, counterexample.  On the scenario slicer (raw X count 3, odd)
`RenderXSlices` invokes the processor for indices 0,1,2 — three rasters —
while `NumXSlices()` reports 4, so a sweep does not emit `NumXSlices()`
rasters. -/
theorem claim_C3_counterexample :
    (RenderXSlices c1Slicer 1 okSP Order.MinToMax ()).procs = [0, 1, 2] ∧
    NumXSlices c1Slicer = 4 ∧
    (RenderXSlices c1Slicer 1 okSP Order.MinToMax ()).procs.length ≠
      (NumXSlices c1Slicer).toNat :=
  of_decide_eq_true (by with_unfolding_all rfl)

/-- Claim C3, amended.  When every backend render and every processor call
succeeds, each per-axis sweep invokes the processor once per slice index
`n = 0, 1, ..., raw-1` in that order, where `raw` is the *unadjusted* rounded
count `round(extent/delta)` of that axis; this equals `NumZSlices()` for the
Z sweep, but `RenderXSlices`/`RenderYSlices` emit the raw count, which is one
less than `NumXSlices()`/`NumYSlices()` whenever the raw X count is odd. -/
theorem claim_C3_amended {σ : Type} (s : Slicer) (mat : ℤ)
    (sp : SliceProcessor σ) (order : Order) (st : σ) (r : Renderer)
    (imgF : ℚ → ℤ → Img) (hr : s.renderer = some r)
    (hrender : ∀ d m, r.render d m = Except.ok (imgF d m))
    (hsp : ∀ st2 n d vr img, (sp st2 n d vr img).2 = Except.ok ()) :
    (RenderXSlices s mat sp order st).procs =
      List.range (xNumSlicesRaw s).toNat ∧
    (RenderYSlices s mat sp order st).procs =
      List.range (yNumSlicesRaw s).toNat ∧
    (RenderZSlices s mat sp order st).procs =
      List.range (NumZSlices s).toNat ∧
    (RenderXSlices s mat sp order st).renders =
      List.range (xNumSlicesRaw s).toNat ∧
    (RenderXSlices s mat sp order st).result = Except.ok () ∧
    (RenderYSlices s mat sp order st).result = Except.ok () ∧
    (RenderZSlices s mat sp order st).result = Except.ok () := by
  have hX := sweepLoop_ok s mat sp (xDepthFn s order (xNumSlicesRaw s))
    (1/2 * s.deltaX)
    (fun n => imgF (xDepthFn s order (xNumSlicesRaw s) n) mat)
    (List.range (xNumSlicesRaw s).toNat) st
    (fun n _ => by rw [renderSlice_some hr, hrender])
    (fun st2 img n _ => hsp st2 n _ _ img)
  have hY := sweepLoop_ok s mat sp (yDepthFn s order (yNumSlicesRaw s))
    (1/2 * s.deltaY)
    (fun n => imgF (yDepthFn s order (yNumSlicesRaw s) n) mat)
    (List.range (yNumSlicesRaw s).toNat) st
    (fun n _ => by rw [renderSlice_some hr, hrender])
    (fun st2 img n _ => hsp st2 n _ _ img)
  have hZ := sweepLoop_ok s mat sp (zDepthFn s order (zNumSlicesRaw s))
    (1/2 * s.deltaZ)
    (fun n => imgF (zDepthFn s order (zNumSlicesRaw s) n) mat)
    (List.range (zNumSlicesRaw s).toNat) st
    (fun n _ => by rw [renderSlice_some hr, hrender])
    (fun st2 img n _ => hsp st2 n _ _ img)
  refine ⟨?_, ?_, ?_, ?_, ?_, ?_, ?_⟩ <;>
    simp only [RenderXSlices, RenderYSlices, RenderZSlices, NumZSlices, hX, hY, hZ]

/-- Witness for the amended claim C3, at the scenario slicer. -/
theorem claim_C3_amended_witness :
    c1Slicer.renderer = some okRenderer3 ∧
    (RenderXSlices c1Slicer 1 okSP Order.MinToMax ()).procs =
      List.range (xNumSlicesRaw c1Slicer).toNat :=
  ⟨rfl,
    (claim_C3_amended c1Slicer 1 okSP Order.MinToMax () okRenderer3
      (fun _ _ => whiteImg3) rfl (fun _ _ => rfl) (fun _ _ _ _ _ => rfl)).1⟩

/-- Claim C4.  For every axis sweep and slice index, the depth the sweep
hands to the backend and the processor is `boxMin + delta/2 + n*delta` under
`MinToMax` and `boxMin + delta/2 + (numSlices-n-1)*delta` under `MaxToMin`
(observed here through a processor that logs every `(sliceNum, depth)` pair
it receives; the backend's `Render` is called with the same local value). -/
theorem claim_C4_depths (s : Slicer) (mat : ℤ) (r : Renderer)
    (imgF : ℚ → ℤ → Img) (hr : s.renderer = some r)
    (hrender : ∀ d m, r.render d m = Except.ok (imgF d m)) :
    (RenderZSlices s mat depthLogger Order.MinToMax []).state =
      (List.range (zNumSlicesRaw s).toNat).map
        (fun n : ℕ => (n, s.irmf.Min 2 + s.deltaZ / 2 + (n : ℚ) * s.deltaZ)) ∧
    (RenderZSlices s mat depthLogger Order.MaxToMin []).state =
      (List.range (zNumSlicesRaw s).toNat).map
        (fun n : ℕ => (n, s.irmf.Min 2 + s.deltaZ / 2 +
          ((zNumSlicesRaw s - (n : ℤ) - 1 : ℤ) : ℚ) * s.deltaZ)) := by
  constructor
  · have h := sweepLoop_ok s mat depthLogger
      (zDepthFn s Order.MinToMax (zNumSlicesRaw s)) (1/2 * s.deltaZ)
      (fun n => imgF (zDepthFn s Order.MinToMax (zNumSlicesRaw s) n) mat)
      (List.range (zNumSlicesRaw s).toNat) []
      (fun n _ => by rw [renderSlice_some hr, hrender])
      (fun st2 img n _ => rfl)
    simp only [RenderZSlices, h]
    simp only [sweepFold, depthLogger]
    rw [foldl_append_log (zDepthFn s Order.MinToMax (zNumSlicesRaw s))]
    simp only [List.nil_append]
    refine List.map_congr_left ?_
    intro n _
    simp only [zDepthFn, zCenter, Prod.mk.injEq, true_and]
    push_cast
    ring
  · have h := sweepLoop_ok s mat depthLogger
      (zDepthFn s Order.MaxToMin (zNumSlicesRaw s)) (1/2 * s.deltaZ)
      (fun n => imgF (zDepthFn s Order.MaxToMin (zNumSlicesRaw s) n) mat)
      (List.range (zNumSlicesRaw s).toNat) []
      (fun n _ => by rw [renderSlice_some hr, hrender])
      (fun st2 img n _ => rfl)
    simp only [RenderZSlices, h]
    simp only [sweepFold, depthLogger]
    rw [foldl_append_log (zDepthFn s Order.MaxToMin (zNumSlicesRaw s))]
    simp only [List.nil_append]
    refine List.map_congr_left ?_
    intro n _
    simp only [zDepthFn, zCenter, Prod.mk.injEq, true_and]
    push_cast
    ring

/-- Witness for claim C4, at the scenario slicer (`delta = 1`, `boxMin = 0`:
the logged depths are 1/2, 3/2, 5/2 — first slice 0.5, last slice
`numSlices - 0.5`). -/
theorem claim_C4_depths_witness :
    c1Slicer.renderer = some okRenderer3 ∧
    (RenderZSlices c1Slicer 1 depthLogger Order.MinToMax []).state =
      (List.range (zNumSlicesRaw c1Slicer).toNat).map
        (fun n : ℕ => (n, c1Slicer.irmf.Min 2 + c1Slicer.deltaZ / 2 +
          (n : ℚ) * c1Slicer.deltaZ)) :=
  ⟨rfl,
    (claim_C4_depths c1Slicer 1 okRenderer3 (fun _ _ => whiteImg3) rfl
      (fun _ _ => rfl)).1⟩

/-- Claim C5, counterexample.  On the scenario slicer with a processor that
fails at slice index `k = 1`, the sweep aborts with the wrapped processor
error, but the processor has been invoked for indices 0 AND 1 — the failing
call itself is an invocation — not "exactly 0..k-1" as the claim states for
both failure kinds. -/
theorem claim_C5_counterexample :
    (RenderZSlices c1Slicer 1 boomSP Order.MinToMax ()).procs = [0, 1] ∧
    (RenderZSlices c1Slicer 1 boomSP Order.MinToMax ()).procs ≠ List.range 1 ∧
    errOf (RenderZSlices c1Slicer 1 boomSP Order.MinToMax ()).result =
      some (SweepError.processFail 1 (3/2) (1/2) "boom") :=
  of_decide_eq_true (by with_unfolding_all rfl)

/-- Claim C5, amended.  If the backend's `Render` fails at slice index `k`
(all earlier slices succeeding), the sweep returns the wrapped render error,
the processor has been invoked for exactly the indices `0..k-1`, and no
further slice is rendered or processed.  If instead the processor's `Process`
call fails at `k`, the sweep returns the wrapped processor error and the
processor has been invoked for exactly `0..k` — the final invocation being
the failing one — with no further slice rendered or processed.  In both cases
there is no retry, no skipping and no continuation. -/
theorem claim_C5_abort_semantics {σ : Type} (s : Slicer) (mat : ℤ)
    (sp : SliceProcessor σ) (order : Order) (st : σ) (r : Renderer)
    (imgF : ℕ → Img) (k : ℕ) (msg : String) (hr : s.renderer = some r)
    (hk : k < (zNumSlicesRaw s).toNat) :
    ((∀ n, n < k →
        r.render (zDepthFn s order (zNumSlicesRaw s) n) mat = Except.ok (imgF n)) →
     r.render (zDepthFn s order (zNumSlicesRaw s) k) mat = Except.error msg →
     (∀ st2 n d vr img, (sp st2 n d vr img).2 = Except.ok ()) →
     (RenderZSlices s mat sp order st).procs = List.range k ∧
     (RenderZSlices s mat sp order st).renders = List.range k ∧
     errOf (RenderZSlices s mat sp order st).result =
       some (SweepError.renderFail (zDepthFn s order (zNumSlicesRaw s) k) mat msg)) ∧
    ((∀ n, r.render (zDepthFn s order (zNumSlicesRaw s) n) mat = Except.ok (imgF n)) →
     (∀ st2 n d vr img, n < k → (sp st2 n d vr img).2 = Except.ok ()) →
     (∀ st2, (sp st2 k (zDepthFn s order (zNumSlicesRaw s) k) (1/2 * s.deltaZ)
        (imgF k)).2 = Except.error msg) →
     (RenderZSlices s mat sp order st).procs = List.range (k + 1) ∧
     (RenderZSlices s mat sp order st).renders = List.range (k + 1) ∧
     errOf (RenderZSlices s mat sp order st).result =
       some (SweepError.processFail k (zDepthFn s order (zNumSlicesRaw s) k)
         (1/2 * s.deltaZ) msg)) := by
  obtain ⟨l2, hsplit⟩ := range_split hk
  constructor
  · intro hok hfail hsp
    have h := sweepLoop_render_fail s mat sp
      (zDepthFn s order (zNumSlicesRaw s)) (1/2 * s.deltaZ) imgF k msg l2
      (List.range k) st
      (fun n hn => by
        rw [renderSlice_some hr]
        exact hok n (List.mem_range.mp hn))
      (fun st2 img n _ => hsp st2 n _ _ img)
      (by rw [renderSlice_some hr]; exact hfail)
    refine ⟨?_, ?_, ?_⟩ <;> simp only [RenderZSlices, hsplit, h, errOf]
  · intro hok hspOk hspK
    have h := sweepLoop_process_fail s mat sp
      (zDepthFn s order (zNumSlicesRaw s)) (1/2 * s.deltaZ) imgF k msg l2
      (List.range k) st
      (fun n _ => by rw [renderSlice_some hr]; exact hok n)
      (fun st2 img n hn => hspOk st2 n _ _ img (List.mem_range.mp hn))
      (by rw [renderSlice_some hr]; exact hok k)
      hspK
    refine ⟨?_, ?_, ?_⟩ <;>
      simp only [RenderZSlices, hsplit, h, errOf, List.range_succ]

/-- Witness for the amended claim C5, at the scenario slicer with the
processor that fails at index 1. -/
theorem claim_C5_abort_semantics_witness :
    1 < (zNumSlicesRaw c1Slicer).toNat ∧
    (RenderZSlices c1Slicer 1 boomSP Order.MinToMax ()).procs = List.range 2 ∧
    errOf (RenderZSlices c1Slicer 1 boomSP Order.MinToMax ()).result =
      some (SweepError.processFail 1
        (zDepthFn c1Slicer Order.MinToMax (zNumSlicesRaw c1Slicer) 1)
        (1/2 * c1Slicer.deltaZ) "boom") := by
  have hk : 1 < (zNumSlicesRaw c1Slicer).toNat :=
    of_decide_eq_true (by with_unfolding_all rfl)
  have h := (claim_C5_abort_semantics c1Slicer 1 boomSP Order.MinToMax ()
      okRenderer3 (fun _ => whiteImg3) 1 "boom" rfl hk).2
    (fun _ => rfl)
    (fun st2 n d vr img hn => by
      simp only [boomSP]
      rw [if_neg (by omega)])
    (fun st2 => rfl)
  exact ⟨hk, h.1, h.2.2⟩

/-- Claim C6, counterexample.  With 100 materials, `Slice` names the 100th
artifact `"b-mat100-x.binvox"`: the ordinal is printed with three digits, not
zero-padded to exactly two as the claim states. -/
theorem claim_C6_counterexample :
    ((writtenArtifacts (Slice "b" mat100Slicer)).map Prod.fst).getD 99 "" =
      "b-mat100-x.binvox" ∧
    NumMaterials mat100Slicer = 100 ∧
    (format02d 100).length ≠ 2 :=
  of_decide_eq_true (by with_unfolding_all rfl)

/-- Claim C6, amended.  For every material ordinal `m`, `Slice` writes that
material's artifact to `"<base>-mat<NN>-<name>.binvox"`, where `<NN>` is `m`
zero-padded to a minimum of two digits — exactly two whenever `m ≤ 99` — and
`<name>` is the material's display name with every space replaced by a hyphen
and all other characters passed through unchanged (so no space remains). -/
theorem claim_C6_filenames (base : String) (s : Slicer) (m : ℕ)
    (p : String × BinVOX) (h1 : 1 ≤ m) (h2 : m ≤ 99)
    (hok : sliceMaterial base s m = Except.ok p) :
    p.1 = base ++ "-mat" ++ format02d m ++ "-" ++
      sanitizeMaterialName (MaterialName s m) ++ ".binvox" ∧
    (format02d m).length = 2 ∧
    (sanitizeMaterialName (MaterialName s m)).data =
      (MaterialName s m).data.map (fun c => if c = ' ' then '-' else c) ∧
    (∀ c ∈ (sanitizeMaterialName (MaterialName s m)).data, c ≠ ' ') := by
  refine ⟨?_, ?_, rfl, ?_⟩
  · unfold sliceMaterial at hok
    split at hok
    · exact Except.noConfusion hok
    · dsimp only at hok
      split at hok
      · exact Except.noConfusion hok
      · injection hok with h
        rw [← h]
        rfl
  · have hall : ∀ mm ∈ Finset.Icc 1 99, (format02d mm).length = 2 :=
      of_decide_eq_true (by with_unfolding_all rfl)
    exact hall m (Finset.mem_Icc.mpr ⟨h1, h2⟩)
  · intro c hc
    simp only [sanitizeMaterialName] at hc
    rw [List.mem_map] at hc
    obtain ⟨c0, _, hfc⟩ := hc
    intro heq
    rw [heq] at hfc
    by_cases h : c0 = ' '
    · rw [if_pos h] at hfc
      exact absurd hfc (by decide)
    · rw [if_neg h] at hfc
      exact h hfc

/-- Witness for the amended claim C6: material 1 of the 100-material model is
persisted as `"b-mat01-x.binvox"`. -/
theorem claim_C6_filenames_witness :
    sliceMaterial "b" mat100Slicer 1 = Except.ok mat100Artifact ∧
    mat100Artifact.1 = "b" ++ "-mat" ++ format02d 1 ++ "-" ++
      sanitizeMaterialName (MaterialName mat100Slicer 1) ++ ".binvox" := by
  have hok : sliceMaterial "b" mat100Slicer 1 = Except.ok mat100Artifact := by
    with_unfolding_all rfl
  exact ⟨hok,
    (claim_C6_filenames "b" mat100Slicer 1 mat100Artifact (le_refl 1)
      (by norm_num) hok).1⟩

/-- Claim C8.  In every `PrepareRenderX`/`PrepareRenderY`/`PrepareRenderZ`
call, after width and height are computed from the in-plane extents and
resolution, the aspect-ratio pass never decreases the height; afterwards
`prepareRender` increments both width and height by one exactly when the
width is odd, so the width ultimately passed to the backend's `Init` is
always even. -/
theorem claim_C8_raster_dims (s : Slicer)
    (hx : s.irmf.Min 0 < s.irmf.Max 0) (hy : s.irmf.Min 1 < s.irmf.Max 1)
    (hz : s.irmf.Min 2 < s.irmf.Max 2) (hdx : 0 < s.deltaX)
    (hdy : 0 < s.deltaY) (hdz : 0 < s.deltaZ) :
    goInt (1/2 + (s.irmf.Max 2 - s.irmf.Min 2) / s.deltaZ) ≤
      (prepareRenderXArgs s).2 ∧
    Even (prepareRenderInitArgs (prepareRenderXArgs s).1
      (prepareRenderXArgs s).2).1 ∧
    goInt (1/2 + (s.irmf.Max 2 - s.irmf.Min 2) / s.deltaZ) ≤
      (prepareRenderYArgs s).2 ∧
    Even (prepareRenderInitArgs (prepareRenderYArgs s).1
      (prepareRenderYArgs s).2).1 ∧
    goInt (1/2 + (s.irmf.Max 1 - s.irmf.Min 1) / s.deltaY) ≤
      (prepareRenderZArgs s).2 ∧
    Even (prepareRenderInitArgs (prepareRenderZArgs s).1
      (prepareRenderZArgs s).2).1 ∧
    (∀ w h : ℤ, 0 ≤ w → Odd w →
      prepareRenderInitArgs w h = (w + 1, h + 1)) ∧
    (∀ w h : ℤ, 0 ≤ w → ¬Odd w → prepareRenderInitArgs w h = (w, h)) := by
  have hwX : 0 ≤ goInt (1/2 + (s.irmf.Max 1 - s.irmf.Min 1) / s.deltaY) :=
    goInt_half_add_nonneg (le_of_lt (div_pos (sub_pos.mpr hy) hdy))
  have hwY : 0 ≤ goInt (1/2 + (s.irmf.Max 0 - s.irmf.Min 0) / s.deltaX) :=
    goInt_half_add_nonneg (le_of_lt (div_pos (sub_pos.mpr hx) hdx))
  have hwZ : 0 ≤ goInt (1/2 + (s.irmf.Max 0 - s.irmf.Min 0) / s.deltaX) := hwY
  have haX : 0 < ((s.irmf.Max 1 - s.irmf.Min 1) * s.deltaZ) /
      ((s.irmf.Max 2 - s.irmf.Min 2) * s.deltaY) :=
    div_pos (mul_pos (sub_pos.mpr hy) hdz) (mul_pos (sub_pos.mpr hz) hdy)
  have haY : 0 < ((s.irmf.Max 0 - s.irmf.Min 0) * s.deltaZ) /
      ((s.irmf.Max 2 - s.irmf.Min 2) * s.deltaX) :=
    div_pos (mul_pos (sub_pos.mpr hx) hdz) (mul_pos (sub_pos.mpr hz) hdx)
  have haZ : 0 < ((s.irmf.Max 0 - s.irmf.Min 0) * s.deltaY) /
      ((s.irmf.Max 1 - s.irmf.Min 1) * s.deltaX) :=
    div_pos (mul_pos (sub_pos.mpr hx) hdy) (mul_pos (sub_pos.mpr hy) hdx)
  have hfstX : (prepareRenderXArgs s).1 =
      goInt (1/2 + (s.irmf.Max 1 - s.irmf.Min 1) / s.deltaY) := by
    simp only [prepareRenderXArgs]
    rw [apply_ite Prod.fst]
    simp
  have hfstY : (prepareRenderYArgs s).1 =
      goInt (1/2 + (s.irmf.Max 0 - s.irmf.Min 0) / s.deltaX) := by
    simp only [prepareRenderYArgs]
    rw [apply_ite Prod.fst]
    simp
  have hfstZ : (prepareRenderZArgs s).1 =
      goInt (1/2 + (s.irmf.Max 0 - s.irmf.Min 0) / s.deltaX) := by
    simp only [prepareRenderZArgs]
    rw [apply_ite Prod.fst]
    simp
  refine ⟨?_, ?_, ?_, ?_, ?_, ?_, ?_, ?_⟩
  · simp only [prepareRenderXArgs]
    rw [apply_ite Prod.snd]
    dsimp only
    exact grown_height_ge _ _ _ hwX haX
  · exact initArgs_even _ _ (by rw [hfstX]; exact hwX)
  · simp only [prepareRenderYArgs]
    rw [apply_ite Prod.snd]
    dsimp only
    exact grown_height_ge _ _ _ hwY haY
  · exact initArgs_even _ _ (by rw [hfstY]; exact hwY)
  · simp only [prepareRenderZArgs]
    rw [apply_ite Prod.snd]
    dsimp only
    exact grown_height_ge _ _ _ hwZ haZ
  · exact initArgs_even _ _ (by rw [hfstZ]; exact hwZ)
  · intro w h hw hodd
    unfold prepareRenderInitArgs
    rw [Int.tmod_eq_emod hw (by norm_num), if_pos (Int.odd_iff.mp hodd)]
  · intro w h hw heven
    unfold prepareRenderInitArgs
    rw [Int.tmod_eq_emod hw (by norm_num),
      if_neg (fun hh => heven (Int.odd_iff.mpr hh))]

/-- Witness for claim C8, at the scenario slicer (raw Z-frame width 3 is odd,
so `Init` receives width 4, even). -/
theorem claim_C8_raster_dims_witness :
    (0 : ℚ) < c1Slicer.deltaX ∧
    Even (prepareRenderInitArgs (prepareRenderZArgs c1Slicer).1
      (prepareRenderZArgs c1Slicer).2).1 := by
  have h1 : c1Slicer.irmf.Min 0 < c1Slicer.irmf.Max 0 :=
    of_decide_eq_true (by with_unfolding_all rfl)
  have h2 : c1Slicer.irmf.Min 1 < c1Slicer.irmf.Max 1 :=
    of_decide_eq_true (by with_unfolding_all rfl)
  have h3 : c1Slicer.irmf.Min 2 < c1Slicer.irmf.Max 2 :=
    of_decide_eq_true (by with_unfolding_all rfl)
  have h4 : (0 : ℚ) < c1Slicer.deltaX := of_decide_eq_true (by with_unfolding_all rfl)
  have h5 : (0 : ℚ) < c1Slicer.deltaY := of_decide_eq_true (by with_unfolding_all rfl)
  have h6 : (0 : ℚ) < c1Slicer.deltaZ := of_decide_eq_true (by with_unfolding_all rfl)
  exact ⟨h4,
    (claim_C8_raster_dims c1Slicer h1 h2 h3 h4 h5 h6).2.2.2.2.2.1⟩

/-- Claim C9.  A slicer holds at most one backend handle (an `Option`);
`NewModel`'s selection switch reuses the held instance exactly when the
required backend kind (OpenGL for `"glsl"` or the empty tag, WebGPU for
`"wgsl"`) matches the held one, and otherwise calls `Close` on the previously
held backend before installing the fresh instance. -/
theorem claim_C9_backend_lifecycle (r : Option BackendHandle) (lang : String)
    (fresh : ℕ) (kind : BackendKind) (hreq : requiredKind lang = some kind) :
    (∀ b, r = some b → b.kind = kind →
      newModelRenderer r lang fresh = (some b, [])) ∧
    (∀ b, r = some b → b.kind ≠ kind →
      newModelRenderer r lang fresh =
        (some ⟨kind, fresh⟩,
          [LifeEvent.closed b, LifeEvent.installed ⟨kind, fresh⟩])) ∧
    (r = none →
      newModelRenderer r lang fresh =
        (some ⟨kind, fresh⟩, [LifeEvent.installed ⟨kind, fresh⟩])) := by
  by_cases h1 : lang = "glsl" ∨ lang = ""
  · simp only [requiredKind, if_pos h1] at hreq
    injection hreq with hk
    subst hk
    refine ⟨?_, ?_, ?_⟩
    · intro b hb hbk
      subst hb
      simp only [newModelRenderer, if_pos h1, if_pos hbk]
    · intro b hb hbk
      subst hb
      simp only [newModelRenderer, if_pos h1, if_neg hbk]
    · intro hb
      subst hb
      simp only [newModelRenderer, if_pos h1]
  · by_cases h2 : lang = "wgsl"
    · simp only [requiredKind, if_neg h1, if_pos h2] at hreq
      injection hreq with hk
      subst hk
      refine ⟨?_, ?_, ?_⟩
      · intro b hb hbk
        subst hb
        simp only [newModelRenderer, if_neg h1, if_pos h2, if_pos hbk]
      · intro b hb hbk
        subst hb
        simp only [newModelRenderer, if_neg h1, if_pos h2, if_neg hbk]
      · intro hb
        subst hb
        simp only [newModelRenderer, if_neg h1, if_pos h2]
    · simp only [requiredKind, if_neg h1, if_neg h2] at hreq
      exact Option.noConfusion hreq

/-- Witness for claim C9: loading a `"wgsl"` model while an OpenGL backend is
held closes the OpenGL backend before installing the WebGPU one. -/
theorem claim_C9_backend_lifecycle_witness :
    requiredKind "wgsl" = some BackendKind.webgpu ∧
    newModelRenderer (some ⟨BackendKind.opengl, 0⟩) "wgsl" 1 =
      (some ⟨BackendKind.webgpu, 1⟩,
        [LifeEvent.closed ⟨BackendKind.opengl, 0⟩,
         LifeEvent.installed ⟨BackendKind.webgpu, 1⟩]) :=
  ⟨rfl,
    (claim_C9_backend_lifecycle (some ⟨BackendKind.opengl, 0⟩) "wgsl" 1
      BackendKind.webgpu rfl).2.1 ⟨BackendKind.opengl, 0⟩ rfl (by decide)⟩

/-- Claim C10.  Loading a model whose shading-language tag is neither
`"glsl"` nor empty nor `"wgsl"` succeeds and leaves the held backend
unchanged (emitting no lifecycle events); and whenever no backend is
installed, `renderSlice` and `prepareRender` return the error
`"renderer not initialized"`, and every sweep with at least one slice aborts
at slice 0 with that error wrapped, invoking no processor. -/
theorem claim_C10_unknown_language {σ : Type} (r : Option BackendHandle)
    (m : IRMF) (fresh : ℕ) (hlang : requiredKind m.Language = none)
    (s : Slicer) (hren : s.renderer = none) (w h : ℤ) (mat : ℤ) (d : ℚ)
    (sp : SliceProcessor σ) (st : σ) (order : Order)
    (hn : 1 ≤ (zNumSlicesRaw s).toNat) :
    NewModel r m fresh = Except.ok (r, []) ∧
    renderSlice s d mat = Except.error "renderer not initialized" ∧
    prepareRender s w h = Except.error "renderer not initialized" ∧
    (RenderZSlices s mat sp order st).procs = [] ∧
    (RenderZSlices s mat sp order st).renders = [] ∧
    errOf (RenderZSlices s mat sp order st).result =
      some (SweepError.renderFail (zDepthFn s order (zNumSlicesRaw s) 0) mat
        "renderer not initialized") := by
  have hcond : ¬(m.Language = "glsl" ∨ m.Language = "") ∧ m.Language ≠ "wgsl" := by
    by_cases h1 : m.Language = "glsl" ∨ m.Language = ""
    · simp [requiredKind, h1] at hlang
    · by_cases h2 : m.Language = "wgsl"
      · simp [requiredKind, h1, h2] at hlang
      · exact ⟨h1, h2⟩
  obtain ⟨l2, hsplit⟩ := range_split (by omega : 0 < (zNumSlicesRaw s).toNat)
  have hfail := sweepLoop_render_fail s mat sp
    (zDepthFn s order (zNumSlicesRaw s)) (1/2 * s.deltaZ) (fun _ => whiteImg3)
    0 "renderer not initialized" l2 (List.range 0) st
    (fun n hn2 => absurd (List.mem_range.mp hn2) (by omega))
    (fun st2 img n hn2 => absurd (List.mem_range.mp hn2) (by omega))
    (by simp only [renderSlice, hren])
  simp only [List.range_zero, List.nil_append] at hfail
  simp only [List.range_zero, List.nil_append] at hsplit
  refine ⟨?_, ?_, ?_, ?_, ?_, ?_⟩
  · simp only [NewModel, newModelRenderer, if_neg hcond.1, if_neg hcond.2]
  · simp only [renderSlice, hren]
  · simp only [prepareRender, hren]
  · simp only [RenderZSlices, hsplit, hfail]
  · simp only [RenderZSlices, hsplit, hfail]
  · simp only [RenderZSlices, hsplit, hfail, errOf]

/-- Witness for claim C10: an `"hlsl"` model leaves a held OpenGL backend in
place, and the scenario slicer without a backend fails every render with
`"renderer not initialized"`. -/
theorem claim_C10_unknown_language_witness :
    requiredKind hlslModel.Language = none ∧
    noRendererSlicer.renderer = none ∧
    1 ≤ (zNumSlicesRaw noRendererSlicer).toNat ∧
    NewModel (some ⟨BackendKind.opengl, 0⟩) hlslModel 1 =
      Except.ok (some ⟨BackendKind.opengl, 0⟩, []) ∧
    renderSlice noRendererSlicer (1/2) 1 =
      Except.error "renderer not initialized" := by
  have hlang : requiredKind hlslModel.Language = none := rfl
  have hren : noRendererSlicer.renderer = none := rfl
  have hn : 1 ≤ (zNumSlicesRaw noRendererSlicer).toNat :=
    of_decide_eq_true (by with_unfolding_all rfl)
  have h := claim_C10_unknown_language (some ⟨BackendKind.opengl, 0⟩)
    hlslModel 1 hlang noRendererSlicer hren 4 4 1 (1/2) okSP () Order.MinToMax hn
  exact ⟨hlang, hren, hn, h.1, h.2.1⟩

end IrmfSlicer
